import Mathlib

/-!
Verification of The_Bunker_Finances: transactional schema evolution, the
invariant-preserving game-night creator, and the idempotent rent backfill.

The repository's vocabulary maps onto the spec's as follows (see the spec
glossary): a `house` is the spec's "Venue" (`nightlyRent` = `nightlyFee`),
a `gameNight` is a "Session" (`rakeCollected` = `feeCollected`), and an
`expense` is a "LineItem".

Decimal database `NUMERIC(10,2)` amounts are modelled as `Int` (the claims
under verification never divide or round); dates are opaque strings, as in
the source, where `date` is a `z.string()` and uniqueness is string equality.
-/

namespace Bunker

/-- A row of the `houses` table (`src/lib/db/schema.ts`): serial id, unique
owner, `nightly_rent NUMERIC NOT NULL`. -/
structure House where
  id : Nat
  owner : String
  nightlyRent : Int
deriving Repr, DecidableEq

/-- A row of the `game_nights` table: serial id, unique `date`,
`rake_collected`, `house_id` referencing `houses(id)` ON DELETE RESTRICT,
nullable notes. -/
structure GameNight where
  id : Nat
  date : String
  rakeCollected : Int
  houseId : Nat
  notes : Option String
deriving Repr, DecidableEq

/-- A row of the `expenses` table: serial id, nullable `game_night_id`
referencing `game_nights(id)` ON DELETE CASCADE, text category, nullable
description, amount. -/
structure Expense where
  id : Nat
  gameNightId : Option Nat
  category : String
  description : Option String
  amount : Int
deriving Repr, DecidableEq

/-- The database state visible to the runtime server actions: the three
tables the claims concern, plus the serial-id counters. -/
structure DB where
  houses : List House
  gameNights : List GameNight
  expenses : List Expense
  nextGameNightId : Nat
  nextExpenseId : Nat
deriving Repr, DecidableEq

/-- The `ActionState` result shape of the server actions in
`src/app/(protected)/game-nights/actions.ts`: `{success: true}` or
`{error: string}`. -/
inductive ActionResult where
  | success
  | failure (msg : String)
deriving Repr, DecidableEq

/-- A Postgres error as surfaced to the `catch` blocks: an error `code`
(e.g. "23505" unique violation, "23503" foreign-key violation) and the raw
constraint-violation message. -/
structure DbError where
  code : String
  message : String
deriving Repr, DecidableEq

/-- JavaScript `x || null` applied to an optional string field
(`parsed.data.notes || null`): the empty string collapses to null. -/
def orNull : Option String → Option String
  | some "" => none
  | o => o

/-- The house pre-fetch of `createGameNight` (actions.ts lines 34-37):
`db.select().from(houses).where(eq(houses.id, houseId))`. -/
def houseLookup (db : DB) (hid : Nat) : Option House :=
  db.houses.find? (fun h => h.id == hid)

/-- The parsed form values `createGameNight` consumes after validation
(actions.ts uses `parsed.data.date`, `.rakeCollected`, `.houseId`,
`.notes`). The zod schema itself is modelled separately as
`gameNightSchemaParse`; note that the checked-in schema omits `houseId`
even though actions.ts reads it — see `gameNightSchemaParse`. -/
structure GNInput where
  date : String
  rakeCollected : Int
  houseId : Nat
  notes : Option String
deriving Repr, DecidableEq

/-- Structural validity of a game-night input in the sense of the spec:
the date is a nonempty well-formed string, the collected rake is
nonnegative, and the house id is a positive identifier. -/
def validGNInput (p : GNInput) : Prop :=
  p.date ≠ "" ∧ 0 ≤ p.rakeCollected ∧ 0 < p.houseId

instance (p : GNInput) : Decidable (validGNInput p) := by
  unfold validGNInput; infer_instance

/-- The transaction body of `createGameNight` (actions.ts lines 45-63): one
`db.transaction` inserting the game night and then its rent expense, the
expense amount taken from the pre-fetched `house` row, the description
naming the house's owner. The insert can violate the unique-date
constraint (Postgres code 23505) or, if the house was deleted between the
pre-fetch and the transaction, the foreign-key constraint (23503); either
error aborts the transaction, which then changes nothing. -/
def gameNightTx (db : DB) (p : GNInput) (house : House) : Except DbError DB :=
  if db.gameNights.any (fun g => g.date == p.date) then
    .error ⟨"23505", "duplicate key value violates unique constraint \"game_nights_date_unique\""⟩
  else if !(db.houses.any (fun h => h.id == p.houseId)) then
    .error ⟨"23503", "insert or update on table \"game_nights\" violates foreign key constraint \"game_nights_house_id_fkey\""⟩
  else
    .ok { db with
      gameNights := db.gameNights ++
        [⟨db.nextGameNightId, p.date, p.rakeCollected, p.houseId, orNull p.notes⟩],
      expenses := db.expenses ++
        [⟨db.nextExpenseId, some db.nextGameNightId, "rent",
          some ("Nightly rent (" ++ house.owner ++ ")"), house.nightlyRent⟩],
      nextGameNightId := db.nextGameNightId + 1,
      nextExpenseId := db.nextExpenseId + 1 }

/-- `createGameNight` (actions.ts lines 17-83) after input parsing: the
auth check, the house pre-fetch, the transaction, and the catch block that
translates constraint-violation codes into domain messages. `db0` is the
database state at the pre-fetch and `db1` the state when the transaction
runs; a concurrent writer may change the database in between (the race the
spec documents), and in a quiescent system `db0 = db1`. -/
def createGameNight (authed : Bool) (p : GNInput) (db0 db1 : DB) :
    ActionResult × DB :=
  if !authed then (.failure "Unauthorized", db1)
  else
    match houseLookup db0 p.houseId with
    | none => (.failure "Selected house not found", db1)
    | some house =>
      match gameNightTx db1 p house with
      | .ok db2 => (.success, db2)
      | .error e =>
        if e.code == "23505" then
          (.failure "A game night already exists for this date", db1)
        else if e.code == "23503" then
          (.failure "Selected house no longer exists", db1)
        else
          (.failure "Failed to create game night. Please try again.", db1)

/-- The raw form fields reaching `gameNightSchema.safeParse`
(`Object.fromEntries(formData)`): each field is present or absent; the
numeric fields are modelled post-coercion. -/
structure GameNightForm where
  date : Option String
  rakeCollected : Option Int
  houseId : Option Int
  notes : Option String
deriving Repr, DecidableEq

/-- The output type of the checked-in `gameNightSchema`
(`src/lib/validations.ts` lines 3-10): `date`, `rakeCollected`, `notes` —
and no `houseId` field, because the schema does not declare one. -/
structure ParsedGameNight where
  date : String
  rakeCollected : Int
  notes : Option String
deriving Repr, DecidableEq

/-- `gameNightSchema.safeParse`, modelled from `src/lib/validations.ts`
lines 3-10: `date` must be a present, nonempty string; `rakeCollected`
defaults to 0 when absent and must be ≥ 0; `notes` is optional. A zod
object strips keys it does not declare, so the form's `houseId` is
dropped without any validation — even though
`createGameNight` in actions.ts reads `parsed.data.houseId`, and the
in-repo implementation plan specifies
`houseId: z.coerce.number().int().positive(...)` in this schema. -/
def gameNightSchemaParse (f : GameNightForm) : Option ParsedGameNight :=
  match f.date with
  | none => none
  | some d =>
    if d.length == 0 then none
    else
      let rake := f.rakeCollected.getD 0
      if rake < 0 then none
      else some ⟨d, rake, f.notes⟩

/-- The raw form fields of `createExpense`, already coerced as
`expenseSchema`'s `z.coerce` would. -/
structure ExpenseForm where
  gameNightId : Int
  category : String
  description : Option String
  amount : Int
deriving Repr, DecidableEq

/-- The category enum of `expenseSchema` (`src/lib/validations.ts`). -/
def expenseCategories : List String :=
  ["in_game_food", "restock", "other", "rent"]

/-- `expenseSchema.safeParse`, modelled from `src/lib/validations.ts`
lines 12-19: `gameNightId` a positive integer, `category` in the enum
(the "rent" category included), `amount` positive. -/
def expenseSchemaParse (f : ExpenseForm) : Option ExpenseForm :=
  if 0 < f.gameNightId ∧ f.category ∈ expenseCategories ∧ 0 < f.amount then
    some f
  else none

/-- `createExpense` (actions.ts lines 129-151): validate, then insert the
expense row directly — there is no check against an existing rent expense
for the same game night, and no auth check. The insert fails only if the
referenced game night does not exist (foreign key), which the bare `catch`
turns into a generic message. -/
def createExpense (f : ExpenseForm) (db : DB) : ActionResult × DB :=
  match expenseSchemaParse f with
  | none => (.failure "Category is required", db)
  | some d =>
    if db.gameNights.any (fun g => (g.id : Int) == d.gameNightId) then
      (.success, { db with
        expenses := db.expenses ++
          [⟨db.nextExpenseId, some d.gameNightId.toNat, d.category,
            orNull d.description, d.amount⟩],
        nextExpenseId := db.nextExpenseId + 1 })
    else (.failure "Failed to create expense.", db)

/-- `deleteExpense` (actions.ts lines 153-162): delete the expense row by
id, whatever its category — including a game night's only rent expense. -/
def deleteExpense (eid : Nat) (db : DB) : ActionResult × DB :=
  (.success, { db with expenses := db.expenses.filter (fun e => e.id != eid) })

/-- Does this expense row carry the reserved "rent" category for the given
game night? (The left-join condition of the backfill script.) -/
def isRentFor (gid : Nat) (e : Expense) : Bool :=
  e.gameNightId == some gid && e.category == "rent"

/-- Does the game night already have a rent expense? -/
def hasRentExpense (db : DB) (gid : Nat) : Bool :=
  db.expenses.any (isRentFor gid)

/-- Number of rent expenses attached to one game night. -/
def rentCount (db : DB) (gid : Nat) : Nat :=
  (db.expenses.filter (isRentFor gid)).length

/-- The house-form fields of `updateHouseAction`, post-coercion. -/
structure HouseForm where
  owner : String
  nightlyRent : Int
deriving Repr, DecidableEq

/-- `houseSchema.safeParse`. The checked-in `src/lib/validations.ts` omits
`houseSchema` although globals/actions.ts imports it; this follows the
repo's revised implementation plan (owner a nonempty name of at most 50
characters, nightlyRent between 1 and 10000; the character-class and
cent-precision refinements play no role in any claim). -/
def houseSchemaParse (f : HouseForm) : Option HouseForm :=
  if 1 ≤ f.owner.length ∧ f.owner.length ≤ 50 ∧
      1 ≤ f.nightlyRent ∧ f.nightlyRent ≤ 10000 then
    some f
  else none

/-- `updateHouseAction` (globals/actions.ts): auth check, positive-id
check, schema validation, then an UPDATE of the single matching `houses`
row guarded by the unique-owner constraint; `returning()` empty means
"House not found". Every path touches only the `houses` table. -/
def updateHouseAction (authed : Bool) (hid : Int) (f : HouseForm) (db : DB) :
    ActionResult × DB :=
  if !authed then (.failure "Unauthorized", db)
  else if hid ≤ 0 then (.failure "Invalid house ID", db)
  else
    match houseSchemaParse f with
    | none => (.failure "Owner name is required", db)
    | some d =>
      if !(db.houses.any (fun h => (h.id : Int) == hid)) then
        (.failure "House not found", db)
      else if db.houses.any
          (fun h => ((h.id : Int) != hid) && h.owner == d.owner) then
        (.failure "A house for this owner already exists", db)
      else
        (.success, { db with houses := db.houses.map (fun h =>
          if (h.id : Int) == hid then
            { h with owner := d.owner, nightlyRent := d.nightlyRent }
          else h) })

/-- A `houses` row as the migration sees it (same shape as `House`;
kept separate because the migration manipulates the schema itself). -/
structure MigHouse where
  id : Nat
  owner : String
  nightlyRent : Int
deriving Repr, DecidableEq

/-- A `game_nights` row from the migration's point of view: only the id
and the (possibly NULL) `house_id` matter to the migration. -/
structure MigGN where
  id : Nat
  houseId : Option Nat
deriving Repr, DecidableEq

/-- The schema-plus-data state the migration script
(`scripts/migrate-add-houses.ts`) manipulates: existence of the `houses`
table, its rows and id sequence, existence of the `house_id` column on
`game_nights`, the game-night rows, and the three schema objects the
migration adds (foreign key, NOT NULL, index). -/
structure MigState where
  housesTableExists : Bool
  houses : List MigHouse
  nextHouseId : Nat
  houseIdColumn : Bool
  gameNights : List MigGN
  fkConstraint : Bool
  notNullConstraint : Bool
  indexExists : Bool
deriving Repr, DecidableEq

/-- The SQL statements the migration issues, in order of execution; used
to state ordering properties over a run's trace. -/
inductive MigAction where
  | createTable
  | seedKam
  | seedShayne
  | addColumn
  | backfill
  | verify
  | addFk
  | setNotNull
  | createIndex
deriving Repr, DecidableEq

/-- Step 1: `CREATE TABLE IF NOT EXISTS "houses" ...` — a no-op when the
table exists, otherwise a fresh empty table with its id sequence at 1. -/
def createHousesTable (s : MigState) : MigState :=
  if s.housesTableExists then s
  else { s with housesTableExists := true, houses := [], nextHouseId := 1 }

/-- An INSERT into `houses`: fails on the unique-owner constraint or the
`nightly_rent` CHECK constraint (positive and at most 10000), otherwise
appends the row and returns its generated id. -/
def insertHouse (s : MigState) (owner : String) (rent : Int) :
    Except String (MigState × Nat) :=
  if s.houses.any (fun h => h.owner == owner) then
    .error "duplicate key value violates unique constraint \"houses_owner_key\""
  else if ¬(0 < rent ∧ rent ≤ 10000) then
    .error "new row for relation \"houses\" violates check constraint"
  else
    .ok ({ s with
            houses := s.houses ++ [⟨s.nextHouseId, owner, rent⟩],
            nextHouseId := s.nextHouseId + 1 }, s.nextHouseId)

/-- Step 3: `ADD COLUMN IF NOT EXISTS "house_id"` — a no-op when the
column exists; a freshly added column is NULL on every existing row. -/
def addHouseIdColumn (s : MigState) : MigState :=
  if s.houseIdColumn then s
  else { s with
          houseIdColumn := true,
          gameNights := s.gameNights.map (fun g => { g with houseId := none }) }

/-- Step 4: the parameterized backfill
`UPDATE game_nights SET house_id = $kamId WHERE house_id IS NULL`. -/
def backfillGameNights (kamId : Nat) (s : MigState) : MigState :=
  { s with gameNights := s.gameNights.map (fun g =>
      if g.houseId.isNone then { g with houseId := some kamId } else g) }

/-- Count of game nights whose `house_id` is still NULL (the step-5
verification query). -/
def nullHouseIdCount (s : MigState) : Nat :=
  (s.gameNights.filter (fun g => g.houseId.isNone)).length

/-- Step 5: verify the backfill — a nonzero NULL count throws a fatal,
descriptive error that aborts the whole transaction. -/
def verifyBackfill (s : MigState) : Except String MigState :=
  if nullHouseIdCount s > 0 then
    .error ("MIGRATION FAILED: " ++ toString (nullHouseIdCount s) ++
      " game nights still have NULL house_id after backfill")
  else .ok s

/-- Step 6: `ADD CONSTRAINT game_nights_house_id_fkey FOREIGN KEY ...
ON DELETE RESTRICT` — fails if the constraint already exists or an
existing non-NULL `house_id` references no house. -/
def addFkStep (s : MigState) : Except String MigState :=
  if s.fkConstraint then
    .error "constraint \"game_nights_house_id_fkey\" for relation \"game_nights\" already exists"
  else if s.gameNights.any (fun g =>
      match g.houseId with
      | some hid => !(s.houses.any (fun h => h.id == hid))
      | none => false) then
    .error "insert or update on table \"game_nights\" violates foreign key constraint"
  else .ok { s with fkConstraint := true }

/-- Step 7: `ALTER COLUMN "house_id" SET NOT NULL` — fails if a NULL
value remains. -/
def setNotNullStep (s : MigState) : Except String MigState :=
  if s.gameNights.any (fun g => g.houseId.isNone) then
    .error "column \"house_id\" of relation \"game_nights\" contains null values"
  else .ok { s with notNullConstraint := true }

/-- Step 8: `CREATE INDEX IF NOT EXISTS "game_nights_house_id_idx"`. -/
def createIndexStep (s : MigState) : MigState :=
  { s with indexExists := true }

/-- The body of `up()` in `scripts/migrate-add-houses.ts`: the eight
ordered steps, run inside one transaction, paired with the trace of SQL
statements actually issued before the run finished or threw. Seeds are
Kam at 330 and Shayne at 200; the application-level id assertion
(`!kamHouse.id`, JavaScript-falsy for 0) aborts without issuing further
statements. -/
def upTrace (s : MigState) : Except String MigState × List MigAction :=
  let s1 := createHousesTable s
  match insertHouse s1 "Kam" 330 with
  | .error e => (.error e, [.createTable, .seedKam])
  | .ok (s2, kamId) =>
    if kamId == 0 then
      (.error "MIGRATION FAILED: Could not create Kam's house record",
       [.createTable, .seedKam])
    else
      match insertHouse s2 "Shayne" 200 with
      | .error e => (.error e, [.createTable, .seedKam, .seedShayne])
      | .ok (s3, shayneId) =>
        if shayneId == 0 then
          (.error "MIGRATION FAILED: Could not create Shayne's house record",
           [.createTable, .seedKam, .seedShayne])
        else
          let s4 := addHouseIdColumn s3
          let s5 := backfillGameNights kamId s4
          match verifyBackfill s5 with
          | .error e =>
            (.error e,
             [.createTable, .seedKam, .seedShayne, .addColumn, .backfill, .verify])
          | .ok s5v =>
            match addFkStep s5v with
            | .error e =>
              (.error e,
               [.createTable, .seedKam, .seedShayne, .addColumn, .backfill,
                .verify, .addFk])
            | .ok s6 =>
              match setNotNullStep s6 with
              | .error e =>
                (.error e,
                 [.createTable, .seedKam, .seedShayne, .addColumn, .backfill,
                  .verify, .addFk, .setNotNull])
              | .ok s7 =>
                (.ok (createIndexStep s7),
                 [.createTable, .seedKam, .seedShayne, .addColumn, .backfill,
                  .verify, .addFk, .setNotNull, .createIndex])

/-- `up()` as observed from outside the transaction: on success the new
state commits; on any error the transaction rolls back and the database
is exactly as before, with the error reported. -/
def runForwardMigration (s : MigState) : MigState × Option String :=
  match (upTrace s).1 with
  | .ok s2 => (s2, none)
  | .error e => (s, some e)

/-- Scan a trace remembering whether `addFk` has been issued yet; false
as soon as a `setNotNull` is met with no earlier `addFk`. -/
def fkScan (seenFk : Bool) : List MigAction → Bool
  | [] => true
  | .addFk :: rest => fkScan true rest
  | .setNotNull :: rest => seenFk && fkScan seenFk rest
  | _ :: rest => fkScan seenFk rest

/-- Does the foreign-key statement precede every NOT NULL statement in a
trace? True of a trace with no `setNotNull` at all. -/
def fkBeforeNotNull (t : List MigAction) : Bool :=
  fkScan false t

/-- Count of `game_nights` rows (the reversal's guard query). -/
def gameNightRowCount (s : MigState) : Nat :=
  s.gameNights.length

/-- The state after the reversal's transaction of inverse steps: drop
index, drop FK, drop column (its values and NOT NULL marker go with it),
drop the `houses` table and its rows. -/
def reversalDrops (s : MigState) : MigState :=
  { s with
    indexExists := false,
    fkConstraint := false,
    houseIdColumn := false,
    notNullConstraint := false,
    gameNights := s.gameNights.map (fun g => { g with houseId := none }),
    housesTableExists := false,
    houses := [],
    nextHouseId := 1 }

/-- `down()` in `scripts/migrate-add-houses.ts`: count the game nights
first; a nonzero count throws a count-specific error before any drop is
issued; a zero count runs the four inverse drops inside one transaction. -/
def runReversal (s : MigState) : MigState × Option String :=
  if gameNightRowCount s > 0 then
    (s, some ("ROLLBACK BLOCKED: " ++ toString (gameNightRowCount s) ++
      " game nights exist. Rolling back would orphan all house references. " ++
      "Delete all game nights first or keep the migration."))
  else
    (reversalDrops s, none)

/-- `HISTORICAL_RENT` from `scripts/backfill-rent.ts` line 15: a module
constant ("330"), not a parameter of `main`. -/
def HISTORICAL_RENT : Int := 330

/-- The anti-join of the backfill script: game nights left-joined against
their rent expenses, keeping those with no match. -/
def nightsNeedingRent (db : DB) : List GameNight :=
  db.gameNights.filter (fun g => !hasRentExpense db g.id)

/-- The batch of rows the backfill constructs for the nights needing
rent: category "rent", the description marked as backfilled, amount
`HISTORICAL_RENT`, consecutive serial ids from the insert. -/
def mkBackfillExpenses : List GameNight → Nat → List Expense
  | [], _ => []
  | g :: gs, n =>
    ⟨n, some g.id, "rent", some "Nightly rent (Kam) - backfilled",
      HISTORICAL_RENT⟩ :: mkBackfillExpenses gs (n + 1)

/-- What one run of the backfill script reports: the resulting database,
the number of rows created, and the verification outcome (`none` when the
early return skipped it, otherwise whether the game-night count equals
the rent-expense count — a mismatch is only a logged warning). -/
structure BackfillResult where
  db : DB
  created : Nat
  verified : Option Bool
deriving Repr, DecidableEq

/-- `main()` of `scripts/backfill-rent.ts`: compute the anti-join; if
nothing needs backfilling, return before inserting (and before the
verification query); otherwise insert the whole batch and verify the
counts. It takes no amount argument — the inserted amount is always the
module constant `HISTORICAL_RENT`. -/
def backfillMain (db : DB) : BackfillResult :=
  let needing := nightsNeedingRent db
  if needing.isEmpty then ⟨db, 0, none⟩
  else
    let db2 : DB := { db with
      expenses := db.expenses ++ mkBackfillExpenses needing db.nextExpenseId,
      nextExpenseId := db.nextExpenseId + needing.length }
    ⟨db2, needing.length,
     some (db2.gameNights.length ==
       (db2.expenses.filter (fun e => e.category == "rent")).length)⟩

end Bunker

namespace Bunker

/-- Helper: every game night in the batch list receives a rent expense in
the constructed backfill batch. -/
theorem mkBackfillExpenses_covers (l : List GameNight) (n : Nat)
    (g : GameNight) (hg : g ∈ l) :
    (mkBackfillExpenses l n).any (isRentFor g.id) = true := by
  induction l generalizing n with
  | nil => cases hg
  | cons a gs ih =>
    rcases List.mem_cons.mp hg with h | h
    · subst h
      simp [mkBackfillExpenses, isRentFor]
    · simp [mkBackfillExpenses, List.any_cons, ih n.succ h]

/-- Helper: a run of the backfill never touches the game-night table. -/
theorem backfillMain_gameNights (db : DB) :
    (backfillMain db).db.gameNights = db.gameNights := by
  unfold backfillMain
  dsimp only
  split <;> rfl

/-- Helper: when the anti-join is empty the backfill takes the early
return and changes nothing. -/
theorem backfillMain_noop (db : DB) (h : nightsNeedingRent db = []) :
    backfillMain db = ⟨db, 0, none⟩ := by
  unfold backfillMain
  dsimp only
  rw [h]
  rfl

/-- Helper: after one run of the backfill, every game night has a rent
expense. -/
theorem backfillMain_covers (db : DB) (g : GameNight)
    (hg : g ∈ db.gameNights) :
    hasRentExpense (backfillMain db).db g.id = true := by
  unfold backfillMain
  by_cases hne : (nightsNeedingRent db).isEmpty
  · rw [if_pos hne]
    have hnil : nightsNeedingRent db = [] := List.isEmpty_iff.mp hne
    unfold nightsNeedingRent at hnil
    have := List.filter_eq_nil_iff.mp hnil g hg
    simpa using this
  · rw [if_neg hne]
    dsimp only
    unfold hasRentExpense at *
    rw [List.any_append]
    by_cases hr : db.expenses.any (isRentFor g.id)
    · rw [hr, Bool.true_or]
    · have hmem : g ∈ nightsNeedingRent db := by
        unfold nightsNeedingRent
        rw [List.mem_filter]
        exact ⟨hg, by simp [hasRentExpense, hr]⟩
      rw [mkBackfillExpenses_covers _ _ _ hmem, Bool.or_true]

/-- Claim C4: the backfill is idempotent — after one run, the anti-join
of game nights still lacking a rent expense is empty, so a second run in
succession takes the early return: it creates zero new rows and leaves
the database (hence all row counts) exactly as the first run left it. -/
theorem backfill_idempotent (db : DB) :
    nightsNeedingRent (backfillMain db).db = [] ∧
    backfillMain (backfillMain db).db = ⟨(backfillMain db).db, 0, none⟩ := by
  have hnil : nightsNeedingRent (backfillMain db).db = [] := by
    unfold nightsNeedingRent
    rw [List.filter_eq_nil_iff]
    intro g hg
    rw [backfillMain_gameNights] at hg
    simp [backfillMain_covers db g hg]
  exact ⟨hnil, backfillMain_noop _ hnil⟩

/-- Claim C1: for every structurally valid input whose house pre-fetch
succeeds, `createGameNight` either persists exactly one new game-night row
together with exactly one new expense row of category "rent" whose amount
is the pre-fetched house's `nightlyRent`, or returns an error and persists
neither row: zero rows persist on any failure. -/
theorem createGameNight_atomic (authed : Bool) (p : GNInput) (db0 db1 : DB)
    (house : House) (_hv : validGNInput p)
    (hl : houseLookup db0 p.houseId = some house) :
    (∃ db2, createGameNight authed p db0 db1 = (.success, db2) ∧
      db2.gameNights = db1.gameNights ++
        [⟨db1.nextGameNightId, p.date, p.rakeCollected, p.houseId, orNull p.notes⟩] ∧
      db2.expenses = db1.expenses ++
        [⟨db1.nextExpenseId, some db1.nextGameNightId, "rent",
          some ("Nightly rent (" ++ house.owner ++ ")"), house.nightlyRent⟩]) ∨
    (∃ m, createGameNight authed p db0 db1 = (.failure m, db1)) := by
  unfold createGameNight
  cases authed with
  | false => right; exact ⟨_, rfl⟩
  | true =>
    simp only [hl, Bool.not_true]
    unfold gameNightTx
    by_cases hdup : db1.gameNights.any (fun g => g.date == p.date)
    · right
      simp [hdup]
    · by_cases hfk : db1.houses.any (fun h => h.id == p.houseId)
      · left
        simp [hdup, hfk]
      · right
        simp [hdup, hfk]

/-- Concrete run discharging the hypotheses of `createGameNight_atomic`:
one house (Kam, rent 330) and an empty game-night table. -/
theorem createGameNight_atomic_witness :
    (∃ db2, createGameNight true ⟨"2026-02-05", 0, 1, none⟩
        ⟨[⟨1, "Kam", 330⟩], [], [], 1, 1⟩ ⟨[⟨1, "Kam", 330⟩], [], [], 1, 1⟩ =
        (.success, db2) ∧
      db2.gameNights = ([] : List GameNight) ++
        [⟨1, "2026-02-05", 0, 1, orNull none⟩] ∧
      db2.expenses = ([] : List Expense) ++
        [⟨1, some 1, "rent", some ("Nightly rent (" ++ "Kam" ++ ")"), 330⟩]) ∨
    (∃ m, createGameNight true ⟨"2026-02-05", 0, 1, none⟩
        ⟨[⟨1, "Kam", 330⟩], [], [], 1, 1⟩ ⟨[⟨1, "Kam", 330⟩], [], [], 1, 1⟩ =
        (.failure m, ⟨[⟨1, "Kam", 330⟩], [], [], 1, 1⟩)) :=
  createGameNight_atomic true ⟨"2026-02-05", 0, 1, none⟩
    ⟨[⟨1, "Kam", 330⟩], [], [], 1, 1⟩ ⟨[⟨1, "Kam", 330⟩], [], [], 1, 1⟩
    ⟨1, "Kam", 330⟩ (by decide) (by rfl)

/-- Claim C6 (evaluation at the failing input): the checked-in
`gameNightSchema` accepts a form whose `houseId` is -5, and equally one
with no `houseId` at all, returning parsed data that carries no house id —
so no validation error is raised for a non-positive house identifier and
the action proceeds to database access. This contradicts the claim (and
the repo's own implementation plan), which require `houseId` to be
validated as a positive identifier before any database access. -/
theorem gameNightSchema_ignores_houseId :
    gameNightSchemaParse ⟨some "2026-02-05", some 0, some (-5), none⟩ =
      some ⟨"2026-02-05", 0, none⟩ ∧
    gameNightSchemaParse ⟨some "2026-02-05", some 0, none, none⟩ =
      some ⟨"2026-02-05", 0, none⟩ :=
  ⟨rfl, rfl⟩

/-- Claim C7: when the creation transaction fails on the unique-date
constraint (code 23505) the action returns the conflict message "A game
night already exists for this date"; when it fails on the foreign-key
constraint (code 23503) it returns "Selected house no longer exists"; and
whatever the database error, the returned message is one of three fixed
domain strings — a raw constraint-violation message is never returned. -/
theorem createGameNight_error_translation (p : GNInput) (db0 db1 : DB)
    (house : House) (e : DbError)
    (hl : houseLookup db0 p.houseId = some house)
    (htx : gameNightTx db1 p house = .error e) :
    (e.code = "23505" → createGameNight true p db0 db1 =
      (.failure "A game night already exists for this date", db1)) ∧
    (e.code = "23503" → createGameNight true p db0 db1 =
      (.failure "Selected house no longer exists", db1)) ∧
    (∀ m, (createGameNight true p db0 db1).1 = .failure m →
      m = "A game night already exists for this date" ∨
      m = "Selected house no longer exists" ∨
      m = "Failed to create game night. Please try again.") := by
  unfold createGameNight
  simp only [hl, htx, Bool.not_true]
  refine ⟨fun h55 => ?_, fun h53 => ?_, fun m hm => ?_⟩
  · simp [h55]
  · by_cases h55 : e.code == "23505"
    · simp [h53] at h55
    · simp [h55, h53]
  · by_cases h55 : e.code == "23505"
    · simp [h55] at hm ⊢
      simp_all
    · by_cases h53 : e.code == "23503"
      · simp [h55, h53] at hm ⊢
        simp_all
      · simp [h55, h53] at hm ⊢
        simp_all

/-- Concrete runs discharging the hypotheses of
`createGameNight_error_translation`: a duplicate date hits the 23505
branch, a house deleted between the pre-fetch and the transaction hits the
23503 branch. -/
theorem createGameNight_error_translation_witness :
    createGameNight true ⟨"2026-02-05", 0, 1, none⟩
      ⟨[⟨1, "Kam", 330⟩], [⟨1, "2026-02-05", 0, 1, none⟩], [], 2, 1⟩
      ⟨[⟨1, "Kam", 330⟩], [⟨1, "2026-02-05", 0, 1, none⟩], [], 2, 1⟩ =
      (.failure "A game night already exists for this date",
        ⟨[⟨1, "Kam", 330⟩], [⟨1, "2026-02-05", 0, 1, none⟩], [], 2, 1⟩) ∧
    createGameNight true ⟨"2026-02-06", 0, 1, none⟩
      ⟨[⟨1, "Kam", 330⟩], [], [], 1, 1⟩ ⟨[], [], [], 1, 1⟩ =
      (.failure "Selected house no longer exists", ⟨[], [], [], 1, 1⟩) :=
  ⟨(createGameNight_error_translation ⟨"2026-02-05", 0, 1, none⟩
      ⟨[⟨1, "Kam", 330⟩], [⟨1, "2026-02-05", 0, 1, none⟩], [], 2, 1⟩
      ⟨[⟨1, "Kam", 330⟩], [⟨1, "2026-02-05", 0, 1, none⟩], [], 2, 1⟩
      ⟨1, "Kam", 330⟩ _ (by rfl) (by rfl)).1 rfl,
   (createGameNight_error_translation ⟨"2026-02-06", 0, 1, none⟩
      ⟨[⟨1, "Kam", 330⟩], [], [], 1, 1⟩ ⟨[], [], [], 1, 1⟩
      ⟨1, "Kam", 330⟩ _ (by rfl) (by rfl)).2.1 rfl⟩

/-- Claim C2: whenever the post-backfill verification query counts a
nonzero number of game nights whose `house_id` is still NULL, step 5
throws a fatal error naming that count, and any error inside the
migration body makes the whole transaction roll back: the observable
database state afterward is exactly the pre-migration state, with no
houses table, seed rows, or added column from that run. -/
theorem migration_verify_rollback :
    (∀ s, 0 < nullHouseIdCount s →
      verifyBackfill s = .error ("MIGRATION FAILED: " ++
        toString (nullHouseIdCount s) ++
        " game nights still have NULL house_id after backfill")) ∧
    (∀ s e, (upTrace s).1 = .error e →
      runForwardMigration s = (s, some e)) := by
  constructor
  · intro s h
    unfold verifyBackfill
    rw [if_pos h]
  · intro s e h
    unfold runForwardMigration
    rw [h]

/-- Concrete runs discharging the hypotheses of
`migration_verify_rollback`: a state with one NULL `house_id` trips the
verification, and a database already seeded with a "Kam" house makes the
migration body fail (unique-owner violation on the seed insert), after
which the state is untouched. -/
theorem migration_verify_rollback_witness :
    verifyBackfill ⟨true, [⟨1, "Kam", 330⟩], 2, true, [⟨1, none⟩],
        false, false, false⟩ =
      .error ("MIGRATION FAILED: " ++
        toString (nullHouseIdCount ⟨true, [⟨1, "Kam", 330⟩], 2, true,
          [⟨1, none⟩], false, false, false⟩) ++
        " game nights still have NULL house_id after backfill") ∧
    runForwardMigration ⟨true, [⟨1, "Kam", 330⟩], 2, false, [],
        false, false, false⟩ =
      (⟨true, [⟨1, "Kam", 330⟩], 2, false, [], false, false, false⟩,
       some "duplicate key value violates unique constraint \"houses_owner_key\"") :=
  ⟨migration_verify_rollback.1
      ⟨true, [⟨1, "Kam", 330⟩], 2, true, [⟨1, none⟩], false, false, false⟩
      (by decide),
   migration_verify_rollback.2
      ⟨true, [⟨1, "Kam", 330⟩], 2, false, [], false, false, false⟩
      "duplicate key value violates unique constraint \"houses_owner_key\""
      (by rfl)⟩

/-- Claim C3: in every execution of the forward migration — successful or
aborted at any step — the trace of issued statements places the
foreign-key constraint strictly before any NOT NULL alteration of
`house_id`. -/
theorem migration_fk_before_not_null (s : MigState) :
    fkBeforeNotNull (upTrace s).2 = true := by
  unfold upTrace
  dsimp only
  repeat' split
  all_goals rfl

/-- Claim C5: `runReversal` counts the existing game-night rows first;
a positive count makes it refuse with an error naming that count and drop
nothing (the state is returned untouched); a zero count executes the four
inverse drops inside one transaction, leaving the schema without the
index, foreign key, `house_id` column, or `houses` table. -/
theorem reversal_guarded (s : MigState) :
    (0 < gameNightRowCount s →
      runReversal s = (s, some ("ROLLBACK BLOCKED: " ++
        toString (gameNightRowCount s) ++
        " game nights exist. Rolling back would orphan all house references. " ++
        "Delete all game nights first or keep the migration."))) ∧
    (gameNightRowCount s = 0 → runReversal s = (reversalDrops s, none)) := by
  constructor
  · intro h
    unfold runReversal
    rw [if_pos h]
  · intro h
    unfold runReversal
    rw [if_neg (by omega)]

/-- Concrete runs discharging the hypotheses of `reversal_guarded`:
a reversal attempted with 3 game nights present is refused with the
count-specific message and drops nothing; with zero game nights the
inverse drops run. -/
theorem reversal_guarded_witness :
    runReversal ⟨true, [⟨1, "Kam", 330⟩], 2, true,
        [⟨1, some 1⟩, ⟨2, some 1⟩, ⟨3, some 1⟩], true, true, true⟩ =
      (⟨true, [⟨1, "Kam", 330⟩], 2, true,
        [⟨1, some 1⟩, ⟨2, some 1⟩, ⟨3, some 1⟩], true, true, true⟩,
       some ("ROLLBACK BLOCKED: " ++
        toString (gameNightRowCount ⟨true, [⟨1, "Kam", 330⟩], 2, true,
          [⟨1, some 1⟩, ⟨2, some 1⟩, ⟨3, some 1⟩], true, true, true⟩) ++
        " game nights exist. Rolling back would orphan all house references. " ++
        "Delete all game nights first or keep the migration.")) ∧
    runReversal ⟨true, [⟨1, "Kam", 330⟩], 2, true, [], true, true, true⟩ =
      (reversalDrops ⟨true, [⟨1, "Kam", 330⟩], 2, true, [], true, true, true⟩,
       none) :=
  ⟨(reversal_guarded ⟨true, [⟨1, "Kam", 330⟩], 2, true,
      [⟨1, some 1⟩, ⟨2, some 1⟩, ⟨3, some 1⟩], true, true, true⟩).1 (by decide),
   (reversal_guarded ⟨true, [⟨1, "Kam", 330⟩], 2, true, [], true, true,
      true⟩).2 rfl⟩

/-- Helper: every row of a constructed backfill batch carries the
constant amount and the backfilled description. -/
theorem mkBackfillExpenses_all_constant (l : List GameNight) (n : Nat) :
    ((mkBackfillExpenses l n).all (fun e =>
      e.amount == HISTORICAL_RENT &&
      e.description == some "Nightly rent (Kam) - backfilled")) = true := by
  induction l generalizing n with
  | nil => rfl
  | cons a gs ih =>
    simp [mkBackfillExpenses, List.all_cons, ih (n + 1)]

/-- Claim C8, counterexample: the backfill tool and the migration take no
default-amount or default-venue argument. Run on a database with one
game night lacking rent, `backfillMain` — whose only input is the
database — inserts the module constant `HISTORICAL_RENT` (330); and the
forward migration, run on a schema with one legacy game night, backfills
it with the id of the hardcoded "Kam" seed row. -/
theorem backfill_defaults_hardcoded_counterexample :
    (backfillMain ⟨[⟨1, "Kam", 330⟩], [⟨1, "2026-02-05", 0, 1, none⟩],
        [], 2, 1⟩).db.expenses =
      [⟨1, some 1, "rent", some "Nightly rent (Kam) - backfilled",
        HISTORICAL_RENT⟩] ∧
    HISTORICAL_RENT = 330 ∧
    (upTrace ⟨false, [], 0, false, [⟨1, none⟩], false, false, false⟩).1 =
      .ok ⟨true, [⟨1, "Kam", 330⟩, ⟨2, "Shayne", 200⟩], 3, true,
        [⟨1, some 1⟩], true, true, true⟩ :=
  ⟨rfl, rfl, rfl⟩

/-- Claim C8 as amended: the backfilled amount and description are fixed
constants of the implementation — whatever the database, every row the
backfill appends beyond the pre-existing expenses has amount
`HISTORICAL_RENT` and the hardcoded "Nightly rent (Kam) - backfilled"
description; no caller-supplied value enters. -/
theorem backfill_defaults_hardcoded (db : DB) :
    (((backfillMain db).db.expenses.drop db.expenses.length).all (fun e =>
      e.amount == HISTORICAL_RENT &&
      e.description == some "Nightly rent (Kam) - backfilled")) = true := by
  unfold backfillMain
  dsimp only
  split
  · simp [List.drop_length]
  · rw [List.drop_left]
    exact mkBackfillExpenses_all_constant _ _

/-- Claim C9: `updateHouseAction` writes only the `houses` table — on
every path (auth failure, validation failure, not-found, unique-owner
conflict, or a successful fee change) the `expenses` and `game_nights`
tables are untouched, so the amount of every previously created line item,
fixed at game-night creation from the pre-fetched house, is unchanged. -/
theorem updateHouse_frame (authed : Bool) (hid : Int) (f : HouseForm)
    (db : DB) :
    (updateHouseAction authed hid f db).2.expenses = db.expenses ∧
    (updateHouseAction authed hid f db).2.gameNights = db.gameNights := by
  unfold updateHouseAction
  refine ⟨?_, ?_⟩ <;> (repeat' split) <;> rfl

/-- Claim C10: the exactly-one-rent-expense invariant is not preserved by
every public operation. For any game night that already has a rent
expense, a valid `createExpense` call with category "rent" succeeds and
adds one more rent expense, with no check; and when a game night's rent
expenses are exactly one row, `deleteExpense` on that row's id leaves the
game night with no rent expense at all. -/
theorem rent_invariant_not_preserved :
    (∀ db f, expenseSchemaParse f = some f → f.category = "rent" →
      db.gameNights.any (fun g => (g.id : Int) == f.gameNightId) = true →
      hasRentExpense db f.gameNightId.toNat = true →
      (createExpense f db).1 = .success ∧
      rentCount (createExpense f db).2 f.gameNightId.toNat =
        rentCount db f.gameNightId.toNat + 1) ∧
    (∀ db e gid, db.expenses.filter (isRentFor gid) = [e] →
      hasRentExpense (deleteExpense e.id db).2 gid = false) := by
  constructor
  · intro db f hp hcat hgn _hrent
    unfold createExpense
    rw [hp]
    dsimp only
    rw [if_pos hgn]
    refine ⟨rfl, ?_⟩
    simp [rentCount, List.filter_append, isRentFor, hcat]
  · intro db e gid hone
    unfold deleteExpense hasRentExpense
    simp only
    rw [List.any_eq_false]
    intro x hx
    rw [List.mem_filter] at hx
    intro hpx
    have hxe : x ∈ db.expenses.filter (isRentFor gid) :=
      List.mem_filter.mpr ⟨hx.1, hpx⟩
    rw [hone, List.mem_singleton] at hxe
    subst hxe
    simp at hx

/-- Concrete runs discharging the hypotheses of
`rent_invariant_not_preserved`: a game night with one rent expense gains a
second via `createExpense`, and loses its only one via `deleteExpense`. -/
theorem rent_invariant_not_preserved_witness :
    ((createExpense ⟨1, "rent", none, 25⟩
        ⟨[⟨1, "Kam", 330⟩], [⟨1, "2026-02-05", 0, 1, none⟩],
          [⟨1, some 1, "rent", none, 330⟩], 2, 2⟩).1 = .success ∧
      rentCount (createExpense ⟨1, "rent", none, 25⟩
        ⟨[⟨1, "Kam", 330⟩], [⟨1, "2026-02-05", 0, 1, none⟩],
          [⟨1, some 1, "rent", none, 330⟩], 2, 2⟩).2 (Int.toNat 1) =
      rentCount ⟨[⟨1, "Kam", 330⟩], [⟨1, "2026-02-05", 0, 1, none⟩],
          [⟨1, some 1, "rent", none, 330⟩], 2, 2⟩ (Int.toNat 1) + 1) ∧
    hasRentExpense (deleteExpense 1
        ⟨[⟨1, "Kam", 330⟩], [⟨1, "2026-02-05", 0, 1, none⟩],
          [⟨1, some 1, "rent", none, 330⟩], 2, 2⟩).2 1 = false :=
  ⟨rent_invariant_not_preserved.1
      ⟨[⟨1, "Kam", 330⟩], [⟨1, "2026-02-05", 0, 1, none⟩],
        [⟨1, some 1, "rent", none, 330⟩], 2, 2⟩
      ⟨1, "rent", none, 25⟩ (by decide) rfl (by decide) (by decide),
   rent_invariant_not_preserved.2
      ⟨[⟨1, "Kam", 330⟩], [⟨1, "2026-02-05", 0, 1, none⟩],
        [⟨1, some 1, "rent", none, 330⟩], 2, 2⟩
      ⟨1, some 1, "rent", none, 330⟩ 1 (by decide)⟩

end Bunker
